import Mathlib

/-!
Shallow embedding of the chat screen of the question-answering UI
(`Chat` component): its local state, the `handleError`, `handleInitialQuery`
and `handleSubmit` handlers, and the mount effect that consumes an initial
query from navigation state.  The asynchronous `api.generate` call is
modelled by passing its outcome (`Except ChatError GenerateResponse`)
into each handler, together with the timestamp `now` observed when the
handler builds its messages; the request the handler would send is
returned alongside the new state, so that claims about which network
calls are made can be stated.
-/

set_option maxHeartbeats 1000000

namespace ChatApp

/-- Role of a transcript entry: the `type` field of the `Message` interface. -/
inductive MsgType where
  | user
  | assistant
  | error
  deriving DecidableEq, Repr

/-- The `Source` interface: a citation card derived from a backend citation. -/
structure Source where
  title : String
  url : String
  site : String
  number : Nat
  deriving DecidableEq, Repr

/-- The `Message` interface: one transcript entry. -/
structure Message where
  id : String
  type : MsgType
  content : String
  sources : Option (List Source)
  deriving DecidableEq, Repr

/-- A backend citation `{ number, title?, url }` (external interface of the
generate endpoint).  The optional `title` is a JavaScript string, so the
empty string is a possible present value. -/
structure Citation where
  number : Nat
  title : Option String
  url : String
  deriving DecidableEq, Repr

/-- A successful response of the generate endpoint:
`{ conversation_id, answer, citations }`. -/
structure GenerateResponse where
  conversation_id : String
  answer : String
  citations : List Citation
  deriving DecidableEq, Repr

/-- The error taxonomy seen by `handleError`: `APIError`, `NetworkError`,
a generic `Error`, or an arbitrary thrown value that is none of these. -/
inductive ChatError where
  | apiError (message : String)
  | networkError (message : String)
  | genericError (message : String)
  | unknownValue
  deriving DecidableEq, Repr

/-- One call to `api.generate`: the query object together with the optional
conversation identifier argument (absent = `none`). -/
structure GenerateRequest where
  query : String
  conversationId : Option String
  deriving DecidableEq, Repr

/-- The component-local state of the chat screen: the five `useState` cells
`messages`, `inputValue`, `conversationId`, `loading`, `error`. -/
structure ChatState where
  messages : List Message
  inputValue : String
  conversationId : Option String
  loading : Bool
  error : Option String
  deriving DecidableEq, Repr

/-- The initial state on mount: `useState` initial values
`[]`, `''`, `null`, `false`, `null`. -/
def initState : ChatState :=
  { messages := [], inputValue := "", conversationId := none,
    loading := false, error := none }

/-- `handleError`: classify a thrown value into a human-readable message.
`APIError` and `NetworkError` get prefixed messages, a generic `Error`
contributes its own message, anything else falls back to
`'An unexpected error occurred'`. -/
def handleError : ChatError → String
  | ChatError.apiError m => "API Error: " ++ m
  | ChatError.networkError m => "Network Error: " ++ m
  | ChatError.genericError m => m
  | ChatError.unknownValue => "An unexpected error occurred"

/-- The citation-to-source mapping used in both handlers:
`{ title: citation.title || `Source ${citation.number}`, url, site: 'AsiaNxt',
number }`.  JavaScript `||` treats both an absent title and the empty
string as falsy. -/
def citationToSource (c : Citation) : Source :=
  { title :=
      match c.title with
      | some t => if t = "" then "Source " ++ toString c.number else t
      | none => "Source " ++ toString c.number,
    url := c.url,
    site := "AsiaNxt",
    number := c.number }

/-- JavaScript `String.prototype.trim`: strip whitespace from both ends.
Defined on the character list so that it computes. -/
def jsTrim (s : String) : String :=
  ⟨(((s.data.dropWhile Char.isWhitespace).reverse).dropWhile
      Char.isWhitespace).reverse⟩

/-- `handleSubmit`: guard `if (!inputValue.trim() || loading) return;`, then
send `api.generate({ query: inputValue }, conversationId)`.  On success,
append a user message (id `Date.now()`, content `inputValue`) and an
assistant message (id `Date.now() + 1`, content `response.answer`, sources
mapped from `response.citations`), clear the input and store
`response.conversation_id`.  On failure, append a single error message with
the classified text.  `setLoading(true)` / `finally setLoading(false)` nets
to `loading = false`, and `setError(null)` runs before the request.
Returns the new state and the request sent, if any. -/
def handleSubmit (s : ChatState) (outcome : Except ChatError GenerateResponse)
    (now : Nat) : ChatState × Option GenerateRequest :=
  if jsTrim s.inputValue = "" ∨ s.loading = true then
    (s, none)
  else
    let req : GenerateRequest :=
      { query := s.inputValue, conversationId := s.conversationId }
    match outcome with
    | Except.ok response =>
      let userMessage : Message :=
        { id := toString now, type := MsgType.user,
          content := s.inputValue, sources := none }
      let aiMessage : Message :=
        { id := toString (now + 1), type := MsgType.assistant,
          content := response.answer,
          sources := some (response.citations.map citationToSource) }
      ({ messages := s.messages ++ [userMessage, aiMessage],
         inputValue := "",
         conversationId := some response.conversation_id,
         loading := false,
         error := none }, some req)
    | Except.error err =>
      let errorMessage := handleError err
      let errorMsg : Message :=
        { id := toString now, type := MsgType.error,
          content := errorMessage, sources := none }
      ({ s with messages := s.messages ++ [errorMsg],
                loading := false,
                error := some errorMessage }, some req)

/-- `handleInitialQuery`: send `api.generate({ query })` with no conversation
identifier argument; on success store `response.conversation_id` and REPLACE
the message list with the user/assistant pair; on failure replace it with a
single error message.  There is no blank-input or loading guard here. -/
def handleInitialQuery (s : ChatState) (query : String)
    (outcome : Except ChatError GenerateResponse) (now : Nat) :
    ChatState × GenerateRequest :=
  let req : GenerateRequest := { query := query, conversationId := none }
  match outcome with
  | Except.ok response =>
    let userMessage : Message :=
      { id := toString now, type := MsgType.user,
        content := query, sources := none }
    let aiMessage : Message :=
      { id := toString (now + 1), type := MsgType.assistant,
        content := response.answer,
        sources := some (response.citations.map citationToSource) }
    ({ s with messages := [userMessage, aiMessage],
              conversationId := some response.conversation_id,
              loading := false,
              error := none }, req)
  | Except.error err =>
    let errorMessage := handleError err
    let errorMsg : Message :=
      { id := toString now, type := MsgType.error,
        content := errorMessage, sources := none }
    ({ s with messages := [errorMsg],
              loading := false,
              error := some errorMessage }, req)

/-- The mount effect: `if (initialQuery) handleInitialQuery(initialQuery)`.
JavaScript truthiness of a string skips only the empty string; a
whitespace-only initial query is sent. -/
def mountEffect (s : ChatState) (initialQuery : Option String)
    (outcome : Except ChatError GenerateResponse) (now : Nat) :
    ChatState × Option GenerateRequest :=
  match initialQuery with
  | some q =>
    if q = "" then (s, none)
    else
      let res := handleInitialQuery s q outcome now
      (res.1, some res.2)
  | none => (s, none)

/-- External events driving the chat screen: typing into the input field
(`onChange`), submitting the form, and the mount effect. -/
inductive ChatEvent where
  | setInput (value : String)
  | submit (outcome : Except ChatError GenerateResponse) (now : Nat)
  | mount (initialQuery : Option String)
      (outcome : Except ChatError GenerateResponse) (now : Nat)
  deriving Repr

/-- One event step: the new state and the list of generate requests the
step issued (empty or a singleton). -/
def stepEvent (s : ChatState) : ChatEvent → ChatState × List GenerateRequest
  | ChatEvent.setInput v => ({ s with inputValue := v }, [])
  | ChatEvent.submit outcome now =>
    let res := handleSubmit s outcome now
    (res.1, res.2.toList)
  | ChatEvent.mount q outcome now =>
    let res := mountEffect s q outcome now
    (res.1, res.2.toList)

/-- Run a list of events from a state, collecting the request trace. -/
def runEvents : ChatState → List ChatEvent → ChatState × List GenerateRequest
  | s, [] => (s, [])
  | s, e :: es =>
    let r1 := stepEvent s e
    let r2 := runEvents r1.1 es
    (r2.1, r1.2 ++ r2.2)

/-- A session of manual exchanges: each triple (query, response, timestamp)
becomes a typing event followed by a successful submission. -/
def sessionOf : List (String × GenerateResponse × Nat) → List ChatEvent
  | [] => []
  | (q, r, t) :: rest =>
    ChatEvent.setInput q :: ChatEvent.submit (Except.ok r) t :: sessionOf rest

/-- Timestamps of a session are admissible from a lower bound `lo`:
each submission's timestamp is at least `lo`, and the next submission comes
at least 2 milliseconds later (the assistant id consumes `t + 1`). -/
def Spaced : Nat → List (String × GenerateResponse × Nat) → Prop
  | _, [] => True
  | lo, (_, _, t) :: rest => lo ≤ t ∧ Spaced (t + 2) rest

/-- Numeric value of a decimal digit character. -/
def digitVal (c : Char) : Nat := c.toNat - 48

/-- Base-10 value of a most-significant-first digit string. -/
def digitsVal (l : List Char) : Nat :=
  l.foldl (fun a c => 10 * a + digitVal c) 0

/-- Base-10 value of a string of digits. -/
def valString (s : String) : Nat := digitsVal s.data


/-! ## Helper lemmas: injectivity of the decimal rendering of `Nat` -/
theorem toDigitsCore_append (b : Nat) :
    ∀ (fuel n : Nat) (ds : List Char),
      Nat.toDigitsCore b fuel n ds = Nat.toDigitsCore b fuel n [] ++ ds := by
  intro fuel
  induction fuel with
  | zero => intro n ds; simp [Nat.toDigitsCore]
  | succ f ih =>
    intro n ds
    simp only [Nat.toDigitsCore]
    by_cases h : n / b = 0
    · simp [h]
    · simp only [h, if_false]
      rw [ih (n / b) (Nat.digitChar (n % b) :: ds),
          ih (n / b) [Nat.digitChar (n % b)]]
      simp

theorem digitVal_digitChar (m : Nat) (h : m < 10) :
    digitVal (Nat.digitChar m) = m := by
  interval_cases m <;> decide

theorem digitsVal_append (l : List Char) (c : Char) :
    digitsVal (l ++ [c]) = 10 * digitsVal l + digitVal c := by
  simp [digitsVal, List.foldl_append]

theorem digitsVal_toDigitsCore :
    ∀ (fuel n : Nat), n < 10 ^ fuel →
      digitsVal (Nat.toDigitsCore 10 (fuel + 1) n []) = n := by
  intro fuel
  induction fuel with
  | zero =>
    intro n hn
    interval_cases n
    decide
  | succ f ih =>
    intro n hn
    have hstep : Nat.toDigitsCore 10 (f + 1 + 1) n [] =
        if n / 10 = 0 then [Nat.digitChar (n % 10)]
        else Nat.toDigitsCore 10 (f + 1) (n / 10) [Nat.digitChar (n % 10)] := rfl
    rw [hstep]
    by_cases h : n / 10 = 0
    · have hn10 : n < 10 := by omega
      simp only [h, if_true]
      rw [Nat.mod_eq_of_lt hn10]
      have : digitsVal [Nat.digitChar n] = digitVal (Nat.digitChar n) := by
        simp [digitsVal]
      rw [this, digitVal_digitChar n hn10]
    · simp only [h, if_false]
      rw [toDigitsCore_append 10 (f + 1) (n / 10) [Nat.digitChar (n % 10)]]
      rw [digitsVal_append]
      have hdiv : n / 10 < 10 ^ f := by
        rw [Nat.div_lt_iff_lt_mul (by decide : 0 < 10)]
        calc n < 10 ^ (f + 1) := hn
          _ = 10 ^ f * 10 := by rw [pow_succ]
      rw [ih (n / 10) hdiv, digitVal_digitChar (n % 10) (Nat.mod_lt n (by decide))]
      omega

theorem valString_repr (n : Nat) : valString (Nat.repr n) = n := by
  have h : n < 10 ^ n := Nat.lt_pow_self (by decide) n
  show digitsVal (Nat.repr n).data = n
  have hdata : (Nat.repr n).data = Nat.toDigitsCore 10 (n + 1) n [] := rfl
  rw [hdata]
  exact digitsVal_toDigitsCore n n h

theorem natToString_injective {m n : Nat} (h : toString m = toString n) :
    m = n := by
  have hm := valString_repr m
  have heq : Nat.repr m = Nat.repr n := h
  rw [heq, valString_repr n] at hm
  exact hm.symm

/-! ## Helper lemma: distinct identifiers along a well-spaced session -/
theorem natToString_ne {a b : Nat} (h : a ≠ b) : toString a ≠ toString b :=
  fun he => h (natToString_injective he)

theorem runSession_nodup
    (l : List (String × GenerateResponse × Nat)) :
    ∀ (lo : Nat) (s : ChatState),
      (∀ x ∈ l, jsTrim x.1 ≠ "") →
      Spaced lo l →
      s.loading = false →
      (∀ m ∈ s.messages, ∃ k : Nat, m.id = toString k ∧ k < lo) →
      (s.messages.map Message.id).Nodup →
      ((runEvents s (sessionOf l)).1.messages.map Message.id).Nodup := by
  induction l with
  | nil =>
    intro lo s _ _ _ _ hnd
    simpa [sessionOf, runEvents] using hnd
  | cons x rest ih =>
    obtain ⟨q, r, t⟩ := x
    intro lo s hq hs hload hbound hnd
    obtain ⟨hlot, hsp⟩ := hs
    have hqne : jsTrim q ≠ "" := hq (q, r, t) (List.mem_cons_self _ _)
    have hguard :
        ¬(jsTrim ({ s with inputValue := q } : ChatState).inputValue = "" ∨
          ({ s with inputValue := q } : ChatState).loading = true) := by
      simp [hqne, hload]
    have hsub : handleSubmit { s with inputValue := q } (Except.ok r) t =
        ({ messages := s.messages ++
             [{ id := toString t, type := MsgType.user, content := q,
                sources := none },
              { id := toString (t + 1), type := MsgType.assistant,
                content := r.answer,
                sources := some (r.citations.map citationToSource) }],
           inputValue := "", conversationId := some r.conversation_id,
           loading := false, error := none },
         some { query := q, conversationId := s.conversationId }) := by
      simp only [handleSubmit]
      rw [if_neg hguard]
    have hrun : (runEvents s (sessionOf ((q, r, t) :: rest))).1 =
        (runEvents (handleSubmit { s with inputValue := q }
          (Except.ok r) t).1 (sessionOf rest)).1 := by
      simp [sessionOf, runEvents, stepEvent]
    rw [hrun, hsub]
    apply ih (t + 2)
    · intro x hx
      exact hq x (List.mem_cons_of_mem _ hx)
    · exact hsp
    · rfl
    · intro m hm
      simp only [List.mem_append, List.mem_cons, List.mem_singleton] at hm
      rcases hm with hm | hm | hm
      · obtain ⟨k, hk, hklt⟩ := hbound m hm
        exact ⟨k, hk, by omega⟩
      · subst hm
        exact ⟨t, rfl, by omega⟩
      · rcases hm with hm | hfalse
        · subst hm
          exact ⟨t + 1, rfl, by omega⟩
        · exact absurd hfalse (List.not_mem_nil m)
    · rw [List.map_append, List.nodup_append]
      refine ⟨hnd, ?_, ?_⟩
      · simp only [List.map_cons, List.map_nil, List.nodup_cons,
          List.mem_singleton, List.not_mem_nil, not_false_iff,
          List.nodup_nil, and_true]
        exact natToString_ne (by omega)
      · intro a ha hb
        obtain ⟨m, hm, hmid⟩ := List.mem_map.mp ha
        obtain ⟨k, hk, hklt⟩ := hbound m hm
        simp only [List.map_cons, List.map_nil, List.mem_cons,
          List.mem_singleton, List.not_mem_nil, or_false] at hb
        rcases hb with hb | hb
        · exact natToString_ne (a := k) (b := t) (by omega)
            (by rw [← hk, hmid, hb])
        · exact natToString_ne (a := k) (b := t + 1) (by omega)
            (by rw [← hk, hmid, hb])

/-! ## Claim theorems -/
/-- Claim C1: for every non-blank query submitted while no request is
pending, a successful generate call appends exactly one user message (whose
content is the submitted query) and exactly one assistant message (whose
content is the response's answer and whose sources list has exactly
`citations.length` entries) to the transcript, in that order. -/
theorem submit_success_appends_user_assistant_pair
    (s : ChatState) (r : GenerateResponse) (now : Nat)
    (hq : jsTrim s.inputValue ≠ "") (hl : s.loading = false) :
    ∃ u a : Message,
      (handleSubmit s (Except.ok r) now).1.messages = s.messages ++ [u, a] ∧
      u.type = MsgType.user ∧ u.content = s.inputValue ∧
      a.type = MsgType.assistant ∧ a.content = r.answer ∧
      ∃ srcs : List Source, a.sources = some srcs ∧
        srcs.length = r.citations.length := by
  have hguard : ¬(jsTrim s.inputValue = "" ∨ s.loading = true) := by
    simp [hq, hl]
  refine ⟨⟨toString now, MsgType.user, s.inputValue, none⟩,
          ⟨toString (now + 1), MsgType.assistant, r.answer,
           some (r.citations.map citationToSource)⟩, ?_, rfl, rfl, rfl, rfl,
          r.citations.map citationToSource, rfl, by simp⟩
  simp only [handleSubmit]
  rw [if_neg hguard]

/-- Witness for `submit_success_appends_user_assistant_pair` at a
concrete submission. -/
theorem submit_success_appends_user_assistant_pair_witness :
    jsTrim "hello" ≠ "" ∧
    ∃ u a : Message,
      (handleSubmit { initState with inputValue := "hello" }
          (Except.ok ⟨"c1", "ans", [⟨1, none, "u"⟩]⟩) 5).1.messages =
        [] ++ [u, a] ∧
      u.type = MsgType.user ∧ u.content = "hello" ∧
      a.type = MsgType.assistant ∧ a.content = "ans" ∧
      ∃ srcs : List Source, a.sources = some srcs ∧ srcs.length = 1 :=
  ⟨by decide,
   submit_success_appends_user_assistant_pair
     { initState with inputValue := "hello" }
     ⟨"c1", "ans", [⟨1, none, "u"⟩]⟩ 5 (by decide) rfl⟩

/-- Claim C2: every request carries the stored conversation identifier
(absent on the first call, since the stored identifier starts as `null` and
`handleInitialQuery` passes none), and every successful response's
`conversation_id` replaces the stored identifier, so it is what the next
request carries. -/
theorem conversation_identifier_threading :
    initState.conversationId = none ∧
    (∀ (s : ChatState) (outcome : Except ChatError GenerateResponse)
        (now : Nat), jsTrim s.inputValue ≠ "" → s.loading = false →
      (handleSubmit s outcome now).2 =
        some { query := s.inputValue, conversationId := s.conversationId }) ∧
    (∀ (s : ChatState) (q : String)
        (outcome : Except ChatError GenerateResponse) (now : Nat),
      (handleInitialQuery s q outcome now).2 =
        { query := q, conversationId := none }) ∧
    (∀ (s : ChatState) (r : GenerateResponse) (now : Nat),
      jsTrim s.inputValue ≠ "" → s.loading = false →
      ((handleSubmit s (Except.ok r) now).1).conversationId =
        some r.conversation_id) ∧
    (∀ (s : ChatState) (q : String) (r : GenerateResponse) (now : Nat),
      ((handleInitialQuery s q (Except.ok r) now).1).conversationId =
        some r.conversation_id) := by
  refine ⟨rfl, ?_, ?_, ?_, ?_⟩
  · intro s outcome now hq hl
    have hguard : ¬(jsTrim s.inputValue = "" ∨ s.loading = true) := by
      simp [hq, hl]
    simp only [handleSubmit]
    rw [if_neg hguard]
    cases outcome <;> rfl
  · intro s q outcome now
    cases outcome <;> rfl
  · intro s r now hq hl
    have hguard : ¬(jsTrim s.inputValue = "" ∨ s.loading = true) := by
      simp [hq, hl]
    simp only [handleSubmit]
    rw [if_neg hguard]
  · intro s q r now
    rfl

/-- Witness for `conversation_identifier_threading`: a first exchange from
the initial state carries no identifier and stores the returned one. -/
theorem conversation_identifier_threading_witness :
    (handleSubmit { initState with inputValue := "hello" }
        (Except.ok ⟨"c9", "ans", []⟩) 5).2 =
      some { query := "hello", conversationId := none } ∧
    ((handleSubmit { initState with inputValue := "hello" }
        (Except.ok ⟨"c9", "ans", []⟩) 5).1).conversationId = some "c9" :=
  ⟨conversation_identifier_threading.2.1
     { initState with inputValue := "hello" } (Except.ok ⟨"c9", "ans", []⟩) 5
     (by decide) rfl,
   conversation_identifier_threading.2.2.2.1
     { initState with inputValue := "hello" } ⟨"c9", "ans", []⟩ 5
     (by decide) rfl⟩

/-- Claim C3: a failed request is classified by `handleError` into exactly
one human-readable string (API-prefixed, network-prefixed, the generic
error's own message, or the fallback), and the failed submission appends
exactly one error-role message with that string; in particular an
application error with message `rate limited` yields one error-role entry
containing that text. -/
theorem failure_classified_and_appended
    (s : ChatState) (e : ChatError) (now : Nat)
    (hq : jsTrim s.inputValue ≠ "") (hl : s.loading = false) :
    (handleSubmit s (Except.error e) now).1.messages =
      s.messages ++
        [{ id := toString now, type := MsgType.error,
           content := handleError e, sources := none }] ∧
    (∀ m : String, handleError (ChatError.apiError m) = "API Error: " ++ m) ∧
    (∀ m : String,
      handleError (ChatError.networkError m) = "Network Error: " ++ m) ∧
    (∀ m : String, handleError (ChatError.genericError m) = m) ∧
    handleError ChatError.unknownValue = "An unexpected error occurred" ∧
    ∃ msg : Message,
      (handleSubmit s (Except.error (ChatError.apiError "rate limited"))
          now).1.messages = s.messages ++ [msg] ∧
      msg.type = MsgType.error ∧
      "rate limited".data.IsInfix msg.content.data := by
  have hguard : ¬(jsTrim s.inputValue = "" ∨ s.loading = true) := by
    simp [hq, hl]
  refine ⟨?_, fun m => rfl, fun m => rfl, fun m => rfl, rfl,
    ⟨toString now, MsgType.error,
     handleError (ChatError.apiError "rate limited"), none⟩, ?_, rfl, ?_⟩
  · simp only [handleSubmit]
    rw [if_neg hguard]
  · simp only [handleSubmit]
    rw [if_neg hguard]
  · show "rate limited".data.IsInfix
      (handleError (ChatError.apiError "rate limited")).data
    decide

/-- Witness for `failure_classified_and_appended` at a concrete failing
submission. -/
theorem failure_classified_and_appended_witness :
    (handleSubmit { initState with inputValue := "q" }
        (Except.error (ChatError.apiError "rate limited")) 7).1.messages =
      [] ++ [{ id := "7", type := MsgType.error,
               content := "API Error: rate limited", sources := none }] :=
  (failure_classified_and_appended { initState with inputValue := "q" }
    (ChatError.apiError "rate limited") 7 (by decide) rfl).1

/-- Claim C4: a submission attempted while a request is pending
(`loading = true`) is a no-op: the state is unchanged and no generate call
is made. -/
theorem submit_while_pending_noop (s : ChatState)
    (outcome : Except ChatError GenerateResponse) (now : Nat)
    (hl : s.loading = true) :
    handleSubmit s outcome now = (s, none) := by
  simp only [handleSubmit]
  rw [if_pos (Or.inr hl)]

/-- Witness for `submit_while_pending_noop`. -/
theorem submit_while_pending_noop_witness :
    handleSubmit { initState with inputValue := "q", loading := true }
        (Except.ok ⟨"c", "a", []⟩) 3 =
      ({ initState with inputValue := "q", loading := true }, none) :=
  submit_while_pending_noop
    { initState with inputValue := "q", loading := true }
    (Except.ok ⟨"c", "a", []⟩) 3 rfl

/-- Claim C5 counterexample: a manual submission of the non-blank query
`hi` whose request fails appends no user message at all (the transcript
gains only the error entry) and leaves the input field untouched, refuting
the unconditional claim that every non-blank submission is appended as a
user message and clears the input. -/
theorem submit_failure_keeps_input_counterexample :
    (handleSubmit { initState with inputValue := "hi" }
        (Except.error (ChatError.genericError "boom")) 7).1.messages =
      [{ id := "7", type := MsgType.error, content := "boom",
         sources := none }] ∧
    (handleSubmit { initState with inputValue := "hi" }
        (Except.error (ChatError.genericError "boom")) 7).1.inputValue =
      "hi" := by
  decide

/-- Claim C5 as amended: for every manual submission of a non-blank query
while no request is pending, the submitted input is sent as the request's
query; if the request succeeds it is appended to the transcript as a user
message and the input field is cleared. -/
theorem submit_sends_appends_and_clears_on_success
    (s : ChatState) (r : GenerateResponse) (now : Nat)
    (hq : jsTrim s.inputValue ≠ "") (hl : s.loading = false) :
    (handleSubmit s (Except.ok r) now).2 =
      some { query := s.inputValue, conversationId := s.conversationId } ∧
    (∃ u a : Message,
      (handleSubmit s (Except.ok r) now).1.messages = s.messages ++ [u, a] ∧
      u.type = MsgType.user ∧ u.content = s.inputValue) ∧
    (handleSubmit s (Except.ok r) now).1.inputValue = "" := by
  have hguard : ¬(jsTrim s.inputValue = "" ∨ s.loading = true) := by
    simp [hq, hl]
  refine ⟨?_, ⟨⟨toString now, MsgType.user, s.inputValue, none⟩,
    ⟨toString (now + 1), MsgType.assistant, r.answer,
     some (r.citations.map citationToSource)⟩, ?_, rfl, rfl⟩, ?_⟩ <;>
    (simp only [handleSubmit]; rw [if_neg hguard])

/-- Witness for `submit_sends_appends_and_clears_on_success`. -/
theorem submit_sends_appends_and_clears_on_success_witness :
    (handleSubmit { initState with inputValue := "hi" }
        (Except.ok ⟨"c", "a", []⟩) 3).2 =
      some { query := "hi", conversationId := none } ∧
    (∃ u a : Message,
      (handleSubmit { initState with inputValue := "hi" }
          (Except.ok ⟨"c", "a", []⟩) 3).1.messages = [] ++ [u, a] ∧
      u.type = MsgType.user ∧ u.content = "hi") ∧
    (handleSubmit { initState with inputValue := "hi" }
        (Except.ok ⟨"c", "a", []⟩) 3).1.inputValue = "" :=
  submit_sends_appends_and_clears_on_success
    { initState with inputValue := "hi" } ⟨"c", "a", []⟩ 3 (by decide) rfl

/-- Claim C6: whether the request succeeds or fails, the loading flag is
false once the handler completes (the `finally` branch).  The manual
submission conjunct assumes the guard that lets its request fire; the
initial-query conjunct is unconditional — that path has no guard and in
particular fires from the mount state, whose input field is empty. -/
theorem loading_false_after_completion :
    (∀ (s : ChatState) (outcome : Except ChatError GenerateResponse)
        (now : Nat), jsTrim s.inputValue ≠ "" → s.loading = false →
      (handleSubmit s outcome now).1.loading = false) ∧
    (∀ (s : ChatState) (q : String)
        (outcome : Except ChatError GenerateResponse) (now : Nat),
      (handleInitialQuery s q outcome now).1.loading = false) := by
  constructor
  · intro s outcome now hq hl
    have hguard : ¬(jsTrim s.inputValue = "" ∨ s.loading = true) := by
      simp [hq, hl]
    simp only [handleSubmit]
    rw [if_neg hguard]
    cases outcome <;> rfl
  · intro s q outcome now
    cases outcome <;> rfl

/-- Witness for `loading_false_after_completion`: a failing manual
submission, and a failing initial query fired from the mount state itself. -/
theorem loading_false_after_completion_witness :
    (handleSubmit { initState with inputValue := "q" }
        (Except.error ChatError.unknownValue) 3).1.loading = false ∧
    (handleInitialQuery initState "w"
        (Except.error ChatError.unknownValue) 3).1.loading = false :=
  ⟨loading_false_after_completion.1 { initState with inputValue := "q" }
     (Except.error ChatError.unknownValue) 3 (by decide) rfl,
   loading_false_after_completion.2 initState "w"
     (Except.error ChatError.unknownValue) 3⟩

/-- Claim C7 counterexample: a whitespace-only initial query passes the
JavaScript truthiness check of the mount effect, so it IS submitted — a
generate call is made and messages are added — refuting the claim that
every blank-or-whitespace query submission is a no-op. -/
theorem whitespace_initial_query_sent_counterexample :
    (mountEffect initState (some " ") (Except.ok ⟨"c1", "ans", []⟩) 3).2 =
      some { query := " ", conversationId := none } ∧
    (mountEffect initState (some " ") (Except.ok ⟨"c1", "ans", []⟩)
        3).1.messages ≠ [] := by
  decide

/-- Claim C7 as amended: manually submitting a blank or whitespace-only
query is a no-op (no message appended, no generate call); the auto-sent
initial query is skipped only when it is the empty string (or absent). -/
theorem blank_manual_submit_noop_empty_initial_skipped
    (s s' : ChatState) (outcome outcome' : Except ChatError GenerateResponse)
    (now now' : Nat) (hq : jsTrim s.inputValue = "") :
    handleSubmit s outcome now = (s, none) ∧
    mountEffect s' (some "") outcome' now' = (s', none) ∧
    mountEffect s' none outcome' now' = (s', none) := by
  refine ⟨?_, rfl, rfl⟩
  simp only [handleSubmit]
  rw [if_pos (Or.inl hq)]

/-- Witness for `blank_manual_submit_noop_empty_initial_skipped` on a
whitespace-only input and an empty initial query. -/
theorem blank_manual_submit_noop_witness :
    handleSubmit { initState with inputValue := "   " }
        (Except.ok ⟨"c", "a", []⟩) 3 =
      ({ initState with inputValue := "   " }, none) ∧
    mountEffect initState (some "") (Except.ok ⟨"c", "a", []⟩) 3 =
      (initState, none) ∧
    mountEffect initState none (Except.ok ⟨"c", "a", []⟩) 3 =
      (initState, none) :=
  blank_manual_submit_noop_empty_initial_skipped
    { initState with inputValue := "   " } initState
    (Except.ok ⟨"c", "a", []⟩) (Except.ok ⟨"c", "a", []⟩) 3 3 (by decide)

/-- Claim C8 counterexample: a citation whose title is present but empty
does not keep its title — the derived source is titled `Source 2` — because
the code tests JavaScript truthiness, not presence. -/
theorem empty_title_not_kept_counterexample :
    ((⟨2, some "", "u"⟩ : Citation)).title = some "" ∧
    (citationToSource ⟨2, some "", "u"⟩).title = "Source 2" := by
  decide

/-- Claim C8 as amended: a citation whose title is absent OR empty yields a
source titled `Source {number}`; a citation with a non-empty title keeps
that title. -/
theorem citation_title_defaulting (c : Citation) :
    ((c.title = none ∨ c.title = some "") →
      (citationToSource c).title = "Source " ++ toString c.number) ∧
    (∀ t : String, c.title = some t → t ≠ "" →
      (citationToSource c).title = t) := by
  constructor
  · intro h
    rcases h with h | h <;> simp [citationToSource, h]
  · intro t ht hne
    simp [citationToSource, ht, hne]

/-- Witness for `citation_title_defaulting` on an absent and a non-empty
title. -/
theorem citation_title_defaulting_witness :
    (citationToSource ⟨3, none, "u"⟩).title = "Source " ++ toString (3 : Nat) ∧
    (citationToSource ⟨4, some "Doc", "u"⟩).title = "Doc" :=
  ⟨(citation_title_defaulting ⟨3, none, "u"⟩).1 (Or.inl rfl),
   (citation_title_defaulting ⟨4, some "Doc", "u"⟩).2 "Doc" rfl (by decide)⟩

/-- Claim C9 counterexample: two successful submissions one millisecond
apart produce identifiers 100, 101, 101, 102 — the first submission's
assistant id collides with the second submission's user id — refuting
unconditional pairwise distinctness of message identifiers. -/
theorem duplicate_ids_adjacent_timestamps_counterexample :
    ¬ (((runEvents initState
        [ChatEvent.setInput "a",
         ChatEvent.submit (Except.ok ⟨"c1", "x", []⟩) 100,
         ChatEvent.setInput "b",
         ChatEvent.submit (Except.ok ⟨"c2", "y", []⟩) 101]).1.messages.map
      Message.id).Nodup) := by
  decide

/-- Claim C9 as amended: each successful submission's assistant identifier
is the decimal string of its user identifier's timestamp plus one, and all
message identifiers of a session of successful submissions are pairwise
distinct provided consecutive submissions' timestamps are at least 2
milliseconds apart. -/
theorem ids_offset_by_one_and_distinct_when_spaced :
    (∀ (s : ChatState) (r : GenerateResponse) (now : Nat),
      jsTrim s.inputValue ≠ "" → s.loading = false →
      ∃ u a : Message,
        (handleSubmit s (Except.ok r) now).1.messages =
          s.messages ++ [u, a] ∧
        u.id = toString now ∧ a.id = toString (now + 1)) ∧
    (∀ l : List (String × GenerateResponse × Nat),
      (∀ x ∈ l, jsTrim x.1 ≠ "") → Spaced 0 l →
      ((runEvents initState (sessionOf l)).1.messages.map
        Message.id).Nodup) := by
  constructor
  · intro s r now hq hl
    have hguard : ¬(jsTrim s.inputValue = "" ∨ s.loading = true) := by
      simp [hq, hl]
    refine ⟨⟨toString now, MsgType.user, s.inputValue, none⟩,
      ⟨toString (now + 1), MsgType.assistant, r.answer,
       some (r.citations.map citationToSource)⟩, ?_, rfl, rfl⟩
    simp only [handleSubmit]
    rw [if_neg hguard]
  · intro l hq hs
    refine runSession_nodup l 0 initState hq hs rfl ?_ (by simp [initState])
    intro m hm
    simp [initState] at hm

/-- Witness for `ids_offset_by_one_and_distinct_when_spaced`: a session of
two submissions 2 ms apart has pairwise distinct identifiers. -/
theorem ids_offset_by_one_and_distinct_when_spaced_witness :
    ((runEvents initState (sessionOf
        [("a", ⟨"c1", "x", []⟩, 100),
         ("b", ⟨"c2", "y", []⟩, 102)])).1.messages.map Message.id).Nodup :=
  ids_offset_by_one_and_distinct_when_spaced.2
    [("a", ⟨"c1", "x", []⟩, 100), ("b", ⟨"c2", "y", []⟩, 102)]
    (by decide) (by simp [Spaced])

/-- Claim C10: when a manual submission's request fails, the only
transcript change is one appended error-role message — no user message is
added — and both the input field and the stored conversation identifier are
unchanged. -/
theorem failure_only_appends_error_message
    (s : ChatState) (e : ChatError) (now : Nat)
    (hq : jsTrim s.inputValue ≠ "") (hl : s.loading = false) :
    (handleSubmit s (Except.error e) now).1.messages =
      s.messages ++
        [{ id := toString now, type := MsgType.error,
           content := handleError e, sources := none }] ∧
    (handleSubmit s (Except.error e) now).1.inputValue = s.inputValue ∧
    (handleSubmit s (Except.error e) now).1.conversationId =
      s.conversationId := by
  have hguard : ¬(jsTrim s.inputValue = "" ∨ s.loading = true) := by
    simp [hq, hl]
  refine ⟨?_, ?_, ?_⟩ <;> (simp only [handleSubmit]; rw [if_neg hguard])

/-- Witness for `failure_only_appends_error_message`. -/
theorem failure_only_appends_error_message_witness :
    (handleSubmit { initState with
        inputValue := "hi", conversationId := some "c7" }
        (Except.error (ChatError.networkError "down")) 9).1.messages =
      [] ++ [{ id := "9", type := MsgType.error,
               content := "Network Error: down", sources := none }] ∧
    (handleSubmit { initState with
        inputValue := "hi", conversationId := some "c7" }
        (Except.error (ChatError.networkError "down")) 9).1.inputValue =
      "hi" ∧
    (handleSubmit { initState with
        inputValue := "hi", conversationId := some "c7" }
        (Except.error (ChatError.networkError "down")) 9).1.conversationId =
      some "c7" :=
  failure_only_appends_error_message
    { initState with inputValue := "hi", conversationId := some "c7" }
    (ChatError.networkError "down") 9 (by decide) rfl

end ChatApp
